import Mathlib

/-!
Verification of the quiz-app scoring engine and ownership guard.

The definitions below are a shallow embedding of the TypeScript sources:
  * `src/lib/quiz-utils.ts`   — `calculatePercentage`, `calculateQuizScore`,
    `requireQuizOwnership`;
  * `src/lib/api-utils.ts`    — `ApiError` and its `notFound` / `forbidden`
    constructors;
  * `src/app/api/quizzes/[id]/submit/route.ts` — the POST handler's inline
    scoring loop (which duplicates, with a divergence on TEXT questions,
    the shared `calculateQuizScore`).

JavaScript idioms are rendered explicitly: `x || ""` on a possibly-missing
string becomes `Option.getD x ""` (both `undefined` and `""` collapse to
`""`), `x || null` becomes `jsOrNull`, `Math.round` on the non-negative
rationals used here becomes floor of `x + 1/2`, and a `Record<string,
string>` answer object becomes an association list queried with
`List.lookup`.
-/

namespace QuizApp

/-- An answer option of a question, as selected by `QUIZ_WITH_QUESTIONS_INCLUDE`
(`{ id; text; isCorrect }`). The source calls this shape `Option`; it is named
`QuizOption` here to avoid clashing with Lean's `Option`. -/
structure QuizOption where
  id : String
  text : String
  isCorrect : Bool
deriving DecidableEq, Repr

/-- The `QuestionWithOptions` interface of `quiz-utils.ts`: `type` is a plain
string there (only `"MCQ"`, `"TRUE_FALSE"`, `"TEXT"` are given meaning by the
scoring engine), `correctAnswer` is `string | null`. -/
structure QuestionWithOptions where
  id : String
  text : String
  type : String
  correctAnswer : Option String
  options : List QuizOption
deriving DecidableEq, Repr

/-- The per-question detail record (`AnswerResult` in `quiz-utils.ts`).
`string | null` fields become `Option String`. -/
structure AnswerResult where
  questionId : String
  questionText : String
  type : String
  userAnswer : String
  userAnswerText : Option String
  correctAnswer : Option String
  correctAnswerText : Option String
  isCorrect : Bool
  options : List QuizOption
deriving DecidableEq, Repr

/-- The `ScoreResult` interface of `quiz-utils.ts`. Scores are counters and the
rounded percentage of non-negative counters is non-negative, so all three
numeric fields are `Nat`. -/
structure ScoreResult where
  score : Nat
  totalPoints : Nat
  percentage : Nat
  answers : List AnswerResult
deriving DecidableEq, Repr

/-- The `userAnswers : Record<string, string>` object: an association list of
question id to submitted string, read only through key lookup. -/
abbrev AnswerMap := List (String × String)

/-- JavaScript `x || null` on a `string | null | undefined` value: an empty
string is falsy and collapses to `null`. -/
def jsOrNull : Option String → Option String
  | some s => if s = "" then none else some s
  | none => none

/-- JavaScript `String.prototype.trim()`, modelled character-by-character:
drop whitespace from the front, then from the back. -/
def jsTrim (s : String) : String :=
  String.mk (((s.data.dropWhile Char.isWhitespace).reverse.dropWhile
    Char.isWhitespace).reverse)

/-- JavaScript `String.prototype.toLowerCase()`, modelled character-by-character
with the ASCII case mapping. -/
def jsToLower (s : String) : String :=
  String.mk (s.data.map Char.toLower)

/-- `calculatePercentage` from `quiz-utils.ts`:
`total > 0 ? Math.round((score / total) * 100) : 0`.
`Math.round` rounds half toward positive infinity; on the non-negative
integer inputs used here, `Math.round((score / total) * 100)` is the
round-half-up of the exact rational `100 * score / total`, computed below as
`(200 * score + total) / (2 * total)` in floor (natural-number) division.
`calculatePercentage_eq_floor` proves this equals `⌊100 * score / total + 1/2⌋`. -/
def calculatePercentage (score total : Nat) : Nat :=
  if 0 < total then (200 * score + total) / (2 * total) else 0

/-- The body of the `for (const question of questions)` loop of
`calculateQuizScore`: returns the increment to `score`, the increment to
`totalPoints`, and the pushed `AnswerResult` record. -/
def processQuestion (userAnswers : AnswerMap) (question : QuestionWithOptions) :
    Nat × Nat × AnswerResult :=
  let userAnswer := (userAnswers.lookup question.id).getD ""
  if question.type = "MCQ" ∨ question.type = "TRUE_FALSE" then
    let correctOption := question.options.find? (fun opt => opt.isCorrect)
    let userOption := question.options.find? (fun opt => opt.id == userAnswer)
    let isCorrect : Bool :=
      match correctOption with
      | some co => userAnswer != "" && userAnswer == co.id
      | none => false
    ((if isCorrect then 1 else 0), 1,
      { questionId := question.id
        questionText := question.text
        type := question.type
        userAnswer := userAnswer
        userAnswerText := jsOrNull (userOption.map (fun opt => opt.text))
        correctAnswer := jsOrNull (correctOption.map (fun opt => opt.id))
        correctAnswerText := jsOrNull (correctOption.map (fun opt => opt.text))
        isCorrect := isCorrect
        options := question.options.map
          (fun opt => { id := opt.id, text := opt.text, isCorrect := opt.isCorrect }) })
  else if question.type = "TEXT" then
    let normalizedUser := jsToLower (jsTrim userAnswer)
    let normalizedCorrect := jsToLower (jsTrim ((question.correctAnswer).getD ""))
    let isCorrect : Bool :=
      normalizedUser != "" && normalizedCorrect != "" && normalizedUser == normalizedCorrect
    ((if isCorrect then 1 else 0), 1,
      { questionId := question.id
        questionText := question.text
        type := question.type
        userAnswer := userAnswer
        userAnswerText := some userAnswer
        correctAnswer := question.correctAnswer
        correctAnswerText := question.correctAnswer
        isCorrect := isCorrect
        options := question.options.map
          (fun opt => { id := opt.id, text := opt.text, isCorrect := opt.isCorrect }) })
  else
    (0, 0,
      { questionId := question.id
        questionText := question.text
        type := question.type
        userAnswer := userAnswer
        userAnswerText := none
        correctAnswer := none
        correctAnswerText := none
        isCorrect := false
        options := question.options.map
          (fun opt => { id := opt.id, text := opt.text, isCorrect := opt.isCorrect }) })

/-- The accumulation performed by `calculateQuizScore`'s loop, processed
front to back. -/
def scoreAccum (userAnswers : AnswerMap) :
    List QuestionWithOptions → Nat × Nat × List AnswerResult
  | [] => (0, 0, [])
  | question :: rest =>
    let step := processQuestion userAnswers question
    let acc := scoreAccum userAnswers rest
    (step.1 + acc.1, step.2.1 + acc.2.1, step.2.2 :: acc.2.2)

/-- `calculateQuizScore` from `quiz-utils.ts`. -/
def calculateQuizScore (questions : List QuestionWithOptions)
    (userAnswers : AnswerMap) : ScoreResult :=
  let acc := scoreAccum userAnswers questions
  { score := acc.1
    totalPoints := acc.2.1
    percentage := calculatePercentage acc.1 acc.2.1
    answers := acc.2.2 }

/-- The spec's percentage formula, written from its words: `percentage` =
round(100 × score / totalPoints), defined as 0 when `totalPoints = 0`, with
round-half-up rounding. Compared against `calculatePercentage` below. -/
def specRoundPercentage (score total : Nat) : Int :=
  if total = 0 then 0 else Int.floor ((score : ℚ) / (total : ℚ) * 100 + 1 / 2)

/-- The per-question record pushed by the inline scoring loop of
`POST /api/quizzes/[id]/submit` (`submit/route.ts`, lines 82-89). -/
structure SubmitAnswerRecord where
  questionId : String
  questionText : String
  userAnswer : String
  correctAnswer : Option String
  isCorrect : Bool
  type : String
deriving DecidableEq, Repr

/-- The body of the scoring loop inlined in the submit route
(`submit/route.ts`, lines 60-90): increments to `score` and `totalPoints`
plus the pushed record. Unlike `processQuestion`, the TEXT branch only
records `correctAnswer` — the comment there reads "TEXT questions are not
scored, just recorded" — so a TEXT question adds nothing to either counter. -/
def submitProcessQuestion (answers : AnswerMap) (question : QuestionWithOptions) :
    Nat × Nat × SubmitAnswerRecord :=
  let userAnswer := (answers.lookup question.id).getD ""
  if question.type = "MCQ" ∨ question.type = "TRUE_FALSE" then
    let correctOption := question.options.find? (fun opt => opt.isCorrect)
    let isCorrect : Bool :=
      match correctOption with
      | some co => userAnswer != "" && userAnswer == co.id
      | none => false
    ((if isCorrect then 1 else 0), 1,
      { questionId := question.id
        questionText := question.text
        userAnswer := userAnswer
        correctAnswer := jsOrNull (correctOption.map (fun opt => opt.id))
        isCorrect := isCorrect
        type := question.type })
  else if question.type = "TEXT" then
    (0, 0,
      { questionId := question.id
        questionText := question.text
        userAnswer := userAnswer
        correctAnswer := question.correctAnswer
        isCorrect := false
        type := question.type })
  else
    (0, 0,
      { questionId := question.id
        questionText := question.text
        userAnswer := userAnswer
        correctAnswer := none
        isCorrect := false
        type := question.type })

/-- The whole inline scoring loop of the submit route: final `score`,
`totalPoints` and `resultAnswers`. -/
def submitRouteScore (questions : List QuestionWithOptions) (answers : AnswerMap) :
    Nat × Nat × List SubmitAnswerRecord :=
  match questions with
  | [] => (0, 0, [])
  | question :: rest =>
    let step := submitProcessQuestion answers question
    let acc := submitRouteScore rest answers
    (step.1 + acc.1, step.2.1 + acc.2.1, step.2.2 :: acc.2.2)

/-- The fields selected by `QUIZ_OWNERSHIP_SELECT` in `quiz-utils.ts`. -/
structure QuizMeta where
  id : String
  title : String
  createdById : String
  isPublished : Bool
deriving DecidableEq, Repr

/-- The `ApiError` class of `api-utils.ts`: an HTTP status code, a message
and an optional machine-readable code. The `details` payload is omitted:
none of the constructors used by the ownership guard sets it. -/
structure ApiError where
  statusCode : Nat
  message : String
  code : Option String
deriving DecidableEq, Repr

/-- `ApiError.notFound` of `api-utils.ts`: status 404, code `NOT_FOUND`. -/
def ApiError.notFound (message : String) : ApiError :=
  { statusCode := 404, message := message, code := some "NOT_FOUND" }

/-- `ApiError.forbidden` of `api-utils.ts`: status 403, code `FORBIDDEN`. -/
def ApiError.forbidden (message : String) : ApiError :=
  { statusCode := 403, message := message, code := some "FORBIDDEN" }

/-- `requireQuizOwnership` of `quiz-utils.ts`. The storage collaborator's
`findUnique` with `QUIZ_OWNERSHIP_SELECT` is abstracted as a function from
quiz id to the optional stored metadata; a throw becomes `Except.error`. -/
def requireQuizOwnership (findQuizOwnershipMeta : String → Option QuizMeta)
    (quizId userId : String) : Except ApiError QuizMeta :=
  match findQuizOwnershipMeta quizId with
  | none => Except.error (ApiError.notFound "Quiz not found")
  | some quiz =>
    if quiz.createdById ≠ userId then
      Except.error
        (ApiError.forbidden "You don\x27t have permission to access this quiz")
    else
      Except.ok quiz

/-! ### Sample data, used to instantiate the theorems on concrete inputs -/

/-- A well-formed MCQ question: two options, exactly one correct. -/
def sampleMCQ : QuestionWithOptions :=
  { id := "q1", text := "Capital of France?", type := "MCQ", correctAnswer := none,
    options := [{ id := "a", text := "Paris", isCorrect := true },
                { id := "b", text := "London", isCorrect := false }] }

/-- A TEXT question with a graded expected answer. -/
def sampleText : QuestionWithOptions :=
  { id := "q2", text := "Capital of Italy?", type := "TEXT",
    correctAnswer := some "Rome", options := [] }

/-- An MCQ question that violates the construction invariant: no option is
marked correct. -/
def sampleBrokenMCQ : QuestionWithOptions :=
  { id := "q4", text := "Pick one", type := "MCQ", correctAnswer := none,
    options := [{ id := "a", text := "first", isCorrect := false },
                { id := "b", text := "second", isCorrect := false }] }

/-- Stored ownership metadata of one quiz. -/
def sampleMeta : QuizMeta :=
  { id := "quiz-1", title := "Sample quiz", createdById := "owner-1",
    isPublished := true }

/-- A storage collaborator holding exactly `sampleMeta` under id `quiz-1`. -/
def sampleDb : String → Option QuizMeta :=
  fun quizId => if quizId = "quiz-1" then some sampleMeta else none

/-! ### Structural lemmas about the scoring loop -/

/-- The loop accumulator, described denotationally: the final `score` and
`totalPoints` are sums of per-question increments, and the `answers` list is
the map of the per-question record builder over the questions. -/
theorem scoreAccum_eq (userAnswers : AnswerMap) (questions : List QuestionWithOptions) :
    scoreAccum userAnswers questions =
      ((questions.map (fun q => (processQuestion userAnswers q).1)).sum,
       (questions.map (fun q => (processQuestion userAnswers q).2.1)).sum,
       questions.map (fun q => (processQuestion userAnswers q).2.2)) := by
  induction questions with
  | nil => rfl
  | cons q rest ih => simp [scoreAccum, ih]

theorem calculateQuizScore_answers (questions : List QuestionWithOptions)
    (userAnswers : AnswerMap) :
    (calculateQuizScore questions userAnswers).answers =
      questions.map (fun q => (processQuestion userAnswers q).2.2) := by
  simp [calculateQuizScore, scoreAccum_eq]

theorem calculateQuizScore_score (questions : List QuestionWithOptions)
    (userAnswers : AnswerMap) :
    (calculateQuizScore questions userAnswers).score =
      (questions.map (fun q => (processQuestion userAnswers q).1)).sum := by
  simp [calculateQuizScore, scoreAccum_eq]

theorem calculateQuizScore_totalPoints (questions : List QuestionWithOptions)
    (userAnswers : AnswerMap) :
    (calculateQuizScore questions userAnswers).totalPoints =
      (questions.map (fun q => (processQuestion userAnswers q).2.1)).sum := by
  simp [calculateQuizScore, scoreAccum_eq]

theorem calculateQuizScore_percentage (questions : List QuestionWithOptions)
    (userAnswers : AnswerMap) :
    (calculateQuizScore questions userAnswers).percentage =
      calculatePercentage (calculateQuizScore questions userAnswers).score
        (calculateQuizScore questions userAnswers).totalPoints := by
  simp [calculateQuizScore, scoreAccum_eq]

/-- A question is worth at most one point toward `totalPoints`. -/
theorem processQuestion_possible_le_one (userAnswers : AnswerMap)
    (question : QuestionWithOptions) :
    (processQuestion userAnswers question).2.1 ≤ 1 := by
  simp only [processQuestion]
  split
  · simp
  · split <;> simp

/-- The earned increment never exceeds the possible increment. -/
theorem processQuestion_earned_le_possible (userAnswers : AnswerMap)
    (question : QuestionWithOptions) :
    (processQuestion userAnswers question).1 ≤ (processQuestion userAnswers question).2.1 := by
  simp only [processQuestion]
  split
  · split <;> simp
  · split
    · split <;> simp
    · simp

/-- The earned increment is 1 exactly when the pushed record says correct. -/
theorem processQuestion_earned_eq (userAnswers : AnswerMap)
    (question : QuestionWithOptions) :
    (processQuestion userAnswers question).1 =
      (if (processQuestion userAnswers question).2.2.isCorrect then 1 else 0) := by
  simp only [processQuestion]
  split
  · rfl
  · split <;> rfl

/-- Each record carries the id of the question it was built from. -/
theorem processQuestion_questionId (userAnswers : AnswerMap)
    (question : QuestionWithOptions) :
    (processQuestion userAnswers question).2.2.questionId = question.id := by
  simp only [processQuestion]
  split
  · rfl
  · split <;> rfl

/-- The loop body reads the answer map only through the submitted string for
the question's own id. -/
theorem processQuestion_congr (ua₁ ua₂ : AnswerMap) (question : QuestionWithOptions)
    (h : (ua₁.lookup question.id).getD "" = (ua₂.lookup question.id).getD "") :
    processQuestion ua₁ question = processQuestion ua₂ question := by
  unfold processQuestion
  rw [h]

theorem calculateQuizScore_congr (questions : List QuestionWithOptions)
    (ua₁ ua₂ : AnswerMap)
    (h : ∀ q ∈ questions, (ua₁.lookup q.id).getD "" = (ua₂.lookup q.id).getD "") :
    calculateQuizScore questions ua₁ = calculateQuizScore questions ua₂ := by
  have h1 : questions.map (fun q => processQuestion ua₁ q) =
      questions.map (fun q => processQuestion ua₂ q) :=
    List.map_congr_left (fun q hq => processQuestion_congr ua₁ ua₂ q (h q hq))
  unfold calculateQuizScore
  rw [scoreAccum_eq, scoreAccum_eq]
  have e1 : questions.map (fun q => (processQuestion ua₁ q).1) =
      questions.map (fun q => (processQuestion ua₂ q).1) := by
    have := congrArg (List.map (fun p => p.1)) h1
    simpa [Function.comp] using this
  have e2 : questions.map (fun q => (processQuestion ua₁ q).2.1) =
      questions.map (fun q => (processQuestion ua₂ q).2.1) := by
    have := congrArg (List.map (fun p => p.2.1)) h1
    simpa [Function.comp] using this
  have e3 : questions.map (fun q => (processQuestion ua₁ q).2.2) =
      questions.map (fun q => (processQuestion ua₂ q).2.2) := by
    have := congrArg (List.map (fun p => p.2.2)) h1
    simpa [Function.comp] using this
  rw [e1, e2, e3]

/-- `calculatePercentage` computes exactly the spec's rounding formula. -/
theorem calculatePercentage_eq_floor (score total : Nat) :
    (calculatePercentage score total : Int) = specRoundPercentage score total := by
  rcases Nat.eq_zero_or_pos total with h | h
  · simp [calculatePercentage, specRoundPercentage, h]
  · have ht : total ≠ 0 := Nat.pos_iff_ne_zero.mp h
    have hcast : ((score : ℚ) / (total : ℚ) * 100 + 1 / 2) =
        ((200 * score + total : ℕ) : ℚ) / ((2 * total : ℕ) : ℚ) := by
      have htq : (total : ℚ) ≠ 0 := Nat.cast_ne_zero.mpr ht
      push_cast
      field_simp
      ring
    rw [calculatePercentage, specRoundPercentage, if_pos h, if_neg ht, hcast,
      Rat.floor_natCast_div_natCast, Int.natCast_div]

/-- `Array.prototype.find` returns the unique element satisfying the
predicate when there is exactly one. -/
theorem find?_eq_of_unique {α : Type} (p : α → Bool) (l : List α) (a : α)
    (ha : a ∈ l) (hpa : p a = true) (huniq : ∀ b ∈ l, p b = true → b = a) :
    l.find? p = some a := by
  induction l with
  | nil => cases ha
  | cons x xs ih =>
    rcases List.mem_cons.mp ha with h | h
    · subst h
      simp [List.find?_cons, hpa]
    · by_cases hx : p x = true
      · have hxa : x = a := huniq x (List.mem_cons_self x xs) hx
        subst hxa
        simp [List.find?_cons, hx]
      · have hx' : p x = false := by
          cases hpx : p x
          · rfl
          · exact absurd hpx hx
        rw [List.find?_cons, hx']
        exact ih h (fun b hb hpb => huniq b (List.mem_cons_of_mem x hb) hpb)

/-- Summing a constant 1 per list element counts the elements. -/
theorem sum_map_one {α : Type} (l : List α) :
    (l.map (fun _ => (1 : Nat))).sum = l.length := by
  induction l with
  | nil => rfl
  | cons x xs ih => simp [ih, Nat.add_comm]

/-! ### The claims -/

/-- C1: the spec (and the shared scoring engine `calculateQuizScore`, whose
doc comment says it is used in both the submit and the result endpoints)
treats TEXT as a scored tier worth 1 point of `totalPoints` regardless of
submission and `correctAnswer`; the inline scoring loop that the submit
route actually runs instead records TEXT answers without scoring them, so a
one-TEXT-question quiz gets `totalPoints = 1` (and here `score = 1`) from
the engine but `totalPoints = 0`, `score = 0` from the submit route. -/
theorem text_scoring_diverges_in_submit_route :
    (calculateQuizScore [sampleText] [("q2", "Rome")]).totalPoints = 1 ∧
    (calculateQuizScore [sampleText] [("q2", "Rome")]).score = 1 ∧
    (submitRouteScore [sampleText] [("q2", "Rome")]).2.1 = 0 ∧
    (submitRouteScore [sampleText] [("q2", "Rome")]).1 = 0 := by
  decide

/-- C2: for every TEXT question of the quiz, the engine marks the detail
record correct iff the trimmed-lowercased submission equals the
trimmed-lowercased `correctAnswer` and both normalized sides are non-empty;
a null or empty `correctAnswer` therefore never matches (not even an empty
submission), the question always contributes exactly 1 to `totalPoints`,
and it contributes 1 to `score` exactly when marked correct. -/
theorem text_correct_iff_normalized_nonempty_match
    (questions : List QuestionWithOptions) (userAnswers : AnswerMap) (i : Nat)
    (q : QuestionWithOptions) (hq : questions[i]? = some q)
    (ht : q.type = "TEXT") :
    ∃ r, (calculateQuizScore questions userAnswers).answers[i]? = some r ∧
      (r.isCorrect = true ↔
        (jsToLower (jsTrim ((userAnswers.lookup q.id).getD "")) ≠ "" ∧
         jsToLower (jsTrim (q.correctAnswer.getD "")) ≠ "" ∧
         jsToLower (jsTrim ((userAnswers.lookup q.id).getD "")) =
           jsToLower (jsTrim (q.correctAnswer.getD "")))) ∧
      ((q.correctAnswer = none ∨ q.correctAnswer = some "") →
        r.isCorrect = false) ∧
      (processQuestion userAnswers q).2.1 = 1 ∧
      (processQuestion userAnswers q).1 = (if r.isCorrect then 1 else 0) := by
  have hne : ¬(q.type = "MCQ" ∨ q.type = "TRUE_FALSE") := by
    rw [ht]; decide
  refine ⟨(processQuestion userAnswers q).2.2, ?_, ?_, ?_, ?_, ?_⟩
  · rw [calculateQuizScore_answers, List.getElem?_map, hq, Option.map_some']
  · simp only [processQuestion, if_neg hne, if_pos ht]
    simp [Bool.and_eq_true, bne_iff_ne, beq_iff_eq, and_assoc]
  · intro hnull
    have hempty : q.correctAnswer.getD "" = "" := by
      rcases hnull with h | h <;> simp [h]
    simp only [processQuestion, if_neg hne, if_pos ht]
    simp [hempty, jsTrim, jsToLower]
  · simp only [processQuestion, if_neg hne, if_pos ht]
  · exact processQuestion_earned_eq userAnswers q

/-- C3: for every MCQ or TRUE_FALSE question with exactly one correct option
whose id is non-empty (an opaque stored id), the engine adds exactly 1 to
`totalPoints`, marks the record correct iff the submitted string equals that
option's id (string equality on the id, never on display text), and adds 1
to `score` exactly in that case; any empty, non-matching or omitted
submission is incorrect but still consumes the point. -/
theorem choice_correct_iff_submitted_option_id
    (questions : List QuestionWithOptions) (userAnswers : AnswerMap) (i : Nat)
    (q : QuestionWithOptions) (co : QuizOption)
    (hq : questions[i]? = some q)
    (ht : q.type = "MCQ" ∨ q.type = "TRUE_FALSE")
    (hmem : co ∈ q.options) (hco : co.isCorrect = true)
    (huniq : ∀ o ∈ q.options, o.isCorrect = true → o = co)
    (hid : co.id ≠ "") :
    ∃ r, (calculateQuizScore questions userAnswers).answers[i]? = some r ∧
      (r.isCorrect = true ↔ (userAnswers.lookup q.id).getD "" = co.id) ∧
      r.correctAnswer = some co.id ∧
      (processQuestion userAnswers q).2.1 = 1 ∧
      (processQuestion userAnswers q).1 =
        (if (userAnswers.lookup q.id).getD "" = co.id then 1 else 0) := by
  have hfind : q.options.find? (fun opt => opt.isCorrect) = some co :=
    find?_eq_of_unique (fun opt => opt.isCorrect) q.options co hmem hco huniq
  have hiff : ((userAnswers.lookup q.id).getD "" != "" &&
      (userAnswers.lookup q.id).getD "" == co.id) = true ↔
      (userAnswers.lookup q.id).getD "" = co.id := by
    constructor
    · intro h
      exact eq_of_beq (Bool.and_elim_right h)
    · intro h
      rw [h]
      simp [hid]
  refine ⟨(processQuestion userAnswers q).2.2, ?_, ?_, ?_, ?_, ?_⟩
  · rw [calculateQuizScore_answers, List.getElem?_map, hq, Option.map_some']
  · simp only [processQuestion, if_pos ht, hfind]
    exact hiff
  · simp only [processQuestion, if_pos ht, hfind]
    simp [jsOrNull, hid]
  · simp only [processQuestion, if_pos ht]
  · rw [processQuestion_earned_eq]
    have : (processQuestion userAnswers q).2.2.isCorrect =
        ((userAnswers.lookup q.id).getD "" != "" &&
          (userAnswers.lookup q.id).getD "" == co.id) := by
      simp only [processQuestion, if_pos ht, hfind]
    rw [this]
    by_cases hu : (userAnswers.lookup q.id).getD "" = co.id
    · rw [if_pos hu, if_pos (hiff.mpr hu)]
    · rw [if_neg hu, if_neg ?_]
      intro hcontra
      exact hu (hiff.mp hcontra)

/-- C4: when every question has one of the three known types, `totalPoints`
equals the number of questions, and the returned percentage is exactly the
spec's formula: round-half-up of 100 × score / totalPoints, with 0 (never a
division error) when `totalPoints` is 0. -/
theorem totalPoints_counts_questions_and_percentage_rounds
    (questions : List QuestionWithOptions) (userAnswers : AnswerMap)
    (h : ∀ q ∈ questions,
      q.type = "MCQ" ∨ q.type = "TRUE_FALSE" ∨ q.type = "TEXT") :
    (calculateQuizScore questions userAnswers).totalPoints = questions.length ∧
    ((calculateQuizScore questions userAnswers).percentage : Int) =
      specRoundPercentage (calculateQuizScore questions userAnswers).score
        (calculateQuizScore questions userAnswers).totalPoints ∧
    ((calculateQuizScore questions userAnswers).totalPoints = 0 →
      (calculateQuizScore questions userAnswers).percentage = 0) := by
  refine ⟨?_, ?_, ?_⟩
  · rw [calculateQuizScore_totalPoints]
    have hone : ∀ q ∈ questions, (processQuestion userAnswers q).2.1 = 1 := by
      intro q hqmem
      rcases h q hqmem with ht | ht | ht
      · simp only [processQuestion, if_pos (Or.inl ht)]
      · simp only [processQuestion, if_pos (Or.inr ht)]
      · have hne : ¬(q.type = "MCQ" ∨ q.type = "TRUE_FALSE") := by
          rw [ht]; decide
        simp only [processQuestion, if_neg hne, if_pos ht]
    have hmap : questions.map (fun q => (processQuestion userAnswers q).2.1) =
        questions.map (fun _ => 1) :=
      List.map_congr_left hone
    rw [hmap]
    exact sum_map_one questions
  · rw [calculateQuizScore_percentage]
    exact calculatePercentage_eq_floor _ _
  · intro h0
    rw [calculateQuizScore_percentage, h0]
    simp [calculatePercentage]

/-- C5: the output `answers` list carries one record per input question, in
exactly the input order (record i belongs to question i), and the whole
result depends on the answer map only through its key lookups — two maps
agreeing on every key produce identical results, so key order is
irrelevant. -/
theorem answers_ordered_and_map_order_independent
    (questions : List QuestionWithOptions) (userAnswers ua₁ ua₂ : AnswerMap)
    (h : ∀ k, ua₁.lookup k = ua₂.lookup k) :
    (calculateQuizScore questions userAnswers).answers.map
        (fun r => r.questionId) = questions.map (fun q => q.id) ∧
    (calculateQuizScore questions userAnswers).answers.length =
      questions.length ∧
    calculateQuizScore questions ua₁ = calculateQuizScore questions ua₂ := by
  refine ⟨?_, ?_, ?_⟩
  · rw [calculateQuizScore_answers, List.map_map]
    exact List.map_congr_left
      (fun q _ => processQuestion_questionId userAnswers q)
  · rw [calculateQuizScore_answers, List.length_map]
  · exact calculateQuizScore_congr questions ua₁ ua₂
      (fun q _ => by rw [h q.id])

/-- C6: the engine is deterministic — two calls on equal inputs agree on
every output field; no hidden state enters the computation. -/
theorem calculateQuizScore_deterministic
    (qs₁ qs₂ : List QuestionWithOptions) (ua₁ ua₂ : AnswerMap)
    (hq : qs₁ = qs₂) (ha : ua₁ = ua₂) :
    (calculateQuizScore qs₁ ua₁).score = (calculateQuizScore qs₂ ua₂).score ∧
    (calculateQuizScore qs₁ ua₁).totalPoints =
      (calculateQuizScore qs₂ ua₂).totalPoints ∧
    (calculateQuizScore qs₁ ua₁).percentage =
      (calculateQuizScore qs₂ ua₂).percentage ∧
    (calculateQuizScore qs₁ ua₁).answers =
      (calculateQuizScore qs₂ ua₂).answers := by
  subst hq
  subst ha
  exact ⟨rfl, rfl, rfl, rfl⟩

/-- C7: the engine is lenient about answer keys — a question id missing from
the map is graded exactly as an empty-string submission, and an entry whose
key matches no question id changes nothing in the output. (Totality holds by
construction: `calculateQuizScore` is a total function.) -/
theorem missing_keys_graded_empty_and_unknown_keys_ignored
    (questions : List QuestionWithOptions) (userAnswers : AnswerMap)
    (qid k : String) (v : String) :
    (userAnswers.lookup qid = none →
      calculateQuizScore questions ((qid, "") :: userAnswers) =
        calculateQuizScore questions userAnswers) ∧
    ((∀ q ∈ questions, q.id ≠ k) →
      calculateQuizScore questions ((k, v) :: userAnswers) =
        calculateQuizScore questions userAnswers) := by
  constructor
  · intro h0
    apply calculateQuizScore_congr
    intro q _
    by_cases hqq : q.id = qid
    · rw [hqq]
      simp [List.lookup, h0]
    · have hb : (q.id == qid) = false := beq_eq_false_iff_ne.mpr hqq
      simp [List.lookup, hb]
  · intro hids
    apply calculateQuizScore_congr
    intro q hqmem
    have hb : (q.id == k) = false := beq_eq_false_iff_ne.mpr (hids q hqmem)
    simp [List.lookup, hb]

/-- C8: the ownership guard fails with the 404/NOT_FOUND error when the quiz
id resolves to nothing, fails with the 403/FORBIDDEN error when it resolves
to a quiz whose `createdById` differs from the caller, returns the stored
metadata otherwise, and the two failure kinds are distinguishable (distinct
status codes and distinct machine-readable codes). -/
theorem requireQuizOwnership_cases
    (db : String → Option QuizMeta) (quizId userId : String) :
    (db quizId = none →
      requireQuizOwnership db quizId userId =
        Except.error (ApiError.notFound "Quiz not found")) ∧
    (∀ meta, db quizId = some meta → meta.createdById ≠ userId →
      requireQuizOwnership db quizId userId =
        Except.error (ApiError.forbidden
          "You don\x27t have permission to access this quiz")) ∧
    (∀ meta, db quizId = some meta → meta.createdById = userId →
      requireQuizOwnership db quizId userId = Except.ok meta) ∧
    (∀ m₁ m₂ : String,
      (ApiError.notFound m₁).statusCode ≠ (ApiError.forbidden m₂).statusCode ∧
      (ApiError.notFound m₁).code ≠ (ApiError.forbidden m₂).code) := by
  refine ⟨?_, ?_, ?_, ?_⟩
  · intro h0
    rw [requireQuizOwnership, h0]
  · intro meta hsome hne
    rw [requireQuizOwnership, hsome]
    simp [hne]
  · intro meta hsome heq
    rw [requireQuizOwnership, hsome]
    simp [heq]
  · intro m₁ m₂
    exact ⟨by simp [ApiError.notFound, ApiError.forbidden],
      by simp [ApiError.notFound, ApiError.forbidden]⟩

/-- C9: invariants of the engine — the score never exceeds `totalPoints`,
which never exceeds the question count; there is one detail record per
question; and the score equals the number of records marked correct, so a
record with `isCorrect = false` never contributed to it. -/
theorem score_bounds_and_isCorrect_count
    (questions : List QuestionWithOptions) (userAnswers : AnswerMap) :
    (calculateQuizScore questions userAnswers).score ≤
      (calculateQuizScore questions userAnswers).totalPoints ∧
    (calculateQuizScore questions userAnswers).totalPoints ≤
      questions.length ∧
    (calculateQuizScore questions userAnswers).answers.length =
      questions.length ∧
    (calculateQuizScore questions userAnswers).score =
      ((calculateQuizScore questions userAnswers).answers.filter
        (fun r => r.isCorrect)).length := by
  refine ⟨?_, ?_, ?_, ?_⟩
  · rw [calculateQuizScore_score, calculateQuizScore_totalPoints]
    induction questions with
    | nil => exact Nat.le_refl 0
    | cons x xs ih =>
      simp only [List.map_cons, List.sum_cons]
      exact Nat.add_le_add (processQuestion_earned_le_possible userAnswers x) ih
  · rw [calculateQuizScore_totalPoints]
    induction questions with
    | nil => exact Nat.le_refl 0
    | cons x xs ih =>
      simp only [List.map_cons, List.sum_cons, List.length_cons]
      have := processQuestion_possible_le_one userAnswers x
      omega
  · rw [calculateQuizScore_answers, List.length_map]
  · rw [calculateQuizScore_score, calculateQuizScore_answers]
    induction questions with
    | nil => rfl
    | cons x xs ih =>
      simp only [List.map_cons, List.sum_cons, List.filter_cons]
      rw [processQuestion_earned_eq]
      by_cases hc : (processQuestion userAnswers x).2.2.isCorrect
      · simp [hc, ih, Nat.add_comm]
      · simp [hc, ih]

/-- C10: an MCQ or TRUE_FALSE question with no correct option (a violated
construction invariant) is still handled totally: it contributes 1 to
`totalPoints` and 0 to `score`, is marked incorrect whatever was submitted,
and its record carries null for both `correctAnswer` and
`correctAnswerText`. -/
theorem choice_without_correct_option_graded_safely
    (questions : List QuestionWithOptions) (userAnswers : AnswerMap) (i : Nat)
    (q : QuestionWithOptions)
    (hq : questions[i]? = some q)
    (ht : q.type = "MCQ" ∨ q.type = "TRUE_FALSE")
    (hnone : ∀ o ∈ q.options, o.isCorrect = false) :
    ∃ r, (calculateQuizScore questions userAnswers).answers[i]? = some r ∧
      r.isCorrect = false ∧
      r.correctAnswer = none ∧
      r.correctAnswerText = none ∧
      (processQuestion userAnswers q).2.1 = 1 ∧
      (processQuestion userAnswers q).1 = 0 := by
  have hfind : q.options.find? (fun opt => opt.isCorrect) = none := by
    rw [List.find?_eq_none]
    intro o ho
    simp [hnone o ho]
  refine ⟨(processQuestion userAnswers q).2.2, ?_, ?_, ?_, ?_, ?_, ?_⟩
  · rw [calculateQuizScore_answers, List.getElem?_map, hq, Option.map_some']
  · simp only [processQuestion, if_pos ht, hfind]
  · simp only [processQuestion, if_pos ht, hfind]
    rfl
  · simp only [processQuestion, if_pos ht, hfind]
    rfl
  · simp only [processQuestion, if_pos ht]
  · simp only [processQuestion, if_pos ht, hfind]
    rfl

/-! ### Concrete witnesses -/

/-- C2 instantiated: a submission of " ROME " against `correctAnswer`
"Rome" is marked correct. -/
theorem text_correct_iff_normalized_nonempty_match_witness :
    ∃ r, (calculateQuizScore [sampleText] [("q2", " ROME ")]).answers[0]? =
        some r ∧ r.isCorrect = true := by
  obtain ⟨r, h1, h2, _, _, _⟩ :=
    text_correct_iff_normalized_nonempty_match [sampleText] [("q2", " ROME ")]
      0 sampleText rfl rfl
  exact ⟨r, h1, h2.mpr (by decide)⟩

/-- C3 instantiated: submitting the correct option's id "a" is marked
correct, and the record exposes `correctAnswer = some "a"`. -/
theorem choice_correct_iff_submitted_option_id_witness :
    ∃ r, (calculateQuizScore [sampleMCQ] [("q1", "a")]).answers[0]? =
        some r ∧ r.isCorrect = true ∧ r.correctAnswer = some "a" := by
  obtain ⟨r, h1, h2, h3, _, _⟩ :=
    choice_correct_iff_submitted_option_id [sampleMCQ] [("q1", "a")] 0
      sampleMCQ { id := "a", text := "Paris", isCorrect := true }
      rfl (Or.inl rfl) (by decide) rfl (by decide) (by decide)
  exact ⟨r, h1, h2.mpr (by decide), h3⟩

/-- C4 instantiated: a two-question quiz (one MCQ answered correctly, one
TEXT left unanswered) yields `totalPoints = 2` and the spec's rounded
percentage. -/
theorem totalPoints_counts_questions_and_percentage_rounds_witness :
    (calculateQuizScore [sampleMCQ, sampleText] [("q1", "a")]).totalPoints =
      2 ∧
    ((calculateQuizScore [sampleMCQ, sampleText] [("q1", "a")]).percentage :
        Int) =
      specRoundPercentage
        (calculateQuizScore [sampleMCQ, sampleText] [("q1", "a")]).score
        (calculateQuizScore [sampleMCQ, sampleText] [("q1", "a")]).totalPoints := by
  have h := totalPoints_counts_questions_and_percentage_rounds
    [sampleMCQ, sampleText] [("q1", "a")] (by decide)
  exact ⟨h.1, h.2.1⟩

/-- C5 instantiated: the output records follow the question order, and the
two key orders of the same two-entry answer map give identical results. -/
theorem answers_ordered_and_map_order_independent_witness :
    (calculateQuizScore [sampleMCQ, sampleText] [("q2", "Rome")]).answers.map
        (fun r => r.questionId) = ["q1", "q2"] ∧
    calculateQuizScore [sampleMCQ, sampleText] [("q1", "a"), ("q2", "Rome")] =
      calculateQuizScore [sampleMCQ, sampleText]
        [("q2", "Rome"), ("q1", "a")] := by
  have h := answers_ordered_and_map_order_independent
    [sampleMCQ, sampleText] [("q2", "Rome")]
    [("q1", "a"), ("q2", "Rome")] [("q2", "Rome"), ("q1", "a")]
    (fun k => by
      by_cases h1 : k = "q1"
      · simp [List.lookup, h1]
      · by_cases h2 : k = "q2"
        · simp [List.lookup, h2]
        · have b1 : (k == "q1") = false := beq_eq_false_iff_ne.mpr h1
          have b2 : (k == "q2") = false := beq_eq_false_iff_ne.mpr h2
          simp [List.lookup, b1, b2])
  exact ⟨h.1, h.2.2⟩

/-- C6 instantiated at equal concrete inputs. -/
theorem calculateQuizScore_deterministic_witness :
    (calculateQuizScore [sampleMCQ] [("q1", "a")]).score =
      (calculateQuizScore [sampleMCQ] [("q1", "a")]).score ∧
    (calculateQuizScore [sampleMCQ] [("q1", "a")]).totalPoints =
      (calculateQuizScore [sampleMCQ] [("q1", "a")]).totalPoints ∧
    (calculateQuizScore [sampleMCQ] [("q1", "a")]).percentage =
      (calculateQuizScore [sampleMCQ] [("q1", "a")]).percentage ∧
    (calculateQuizScore [sampleMCQ] [("q1", "a")]).answers =
      (calculateQuizScore [sampleMCQ] [("q1", "a")]).answers :=
  calculateQuizScore_deterministic [sampleMCQ] [sampleMCQ]
    [("q1", "a")] [("q1", "a")] rfl rfl

/-- C7 instantiated: grading with an extra explicit empty entry for an
unanswered id, or with a stray entry matching no question, changes
nothing. -/
theorem missing_keys_graded_empty_and_unknown_keys_ignored_witness :
    calculateQuizScore [sampleText] [("nokey", "")] =
      calculateQuizScore [sampleText] [] ∧
    calculateQuizScore [sampleText] [("stray", "zz")] =
      calculateQuizScore [sampleText] [] := by
  have h := missing_keys_graded_empty_and_unknown_keys_ignored
    [sampleText] [] "nokey" "stray" "zz"
  exact ⟨h.1 rfl, h.2 (by decide)⟩

/-- C8 instantiated on a one-quiz store: owner gets the metadata, a
different user gets the 403 error, a missing id gets the 404 error, and the
two errors differ in status code. -/
theorem requireQuizOwnership_cases_witness :
    requireQuizOwnership sampleDb "quiz-1" "owner-1" = Except.ok sampleMeta ∧
    requireQuizOwnership sampleDb "quiz-1" "intruder" =
      Except.error (ApiError.forbidden
        "You don\x27t have permission to access this quiz") ∧
    requireQuizOwnership sampleDb "missing" "owner-1" =
      Except.error (ApiError.notFound "Quiz not found") ∧
    (ApiError.notFound "Quiz not found").statusCode ≠
      (ApiError.forbidden
        "You don\x27t have permission to access this quiz").statusCode := by
  refine ⟨?_, ?_, ?_, ?_⟩
  · exact (requireQuizOwnership_cases sampleDb "quiz-1" "owner-1").2.2.1
      sampleMeta (by decide) rfl
  · exact (requireQuizOwnership_cases sampleDb "quiz-1" "intruder").2.1
      sampleMeta (by decide) (by decide)
  · exact (requireQuizOwnership_cases sampleDb "missing" "owner-1").1
      (by decide)
  · exact ((requireQuizOwnership_cases sampleDb "quiz-1" "owner-1").2.2.2
      "Quiz not found"
      "You don\x27t have permission to access this quiz").1

/-- C10 instantiated: the invariant-violating MCQ without a correct option
is graded incorrect with null correct-answer fields even when an existing
option id was submitted. -/
theorem choice_without_correct_option_graded_safely_witness :
    ∃ r, (calculateQuizScore [sampleBrokenMCQ] [("q4", "a")]).answers[0]? =
        some r ∧ r.isCorrect = false ∧ r.correctAnswer = none := by
  obtain ⟨r, h1, h2, h3, _, _, _⟩ :=
    choice_without_correct_option_graded_safely [sampleBrokenMCQ]
      [("q4", "a")] 0 sampleBrokenMCQ rfl (Or.inl rfl) (by decide)
  exact ⟨r, h1, h2, h3⟩

end QuizApp
